import Mathlib

set_option linter.unusedVariables false

/-!
Verification of the stack-canary module (`src/canary.rs`) of probe-run.

The Rust source is shallowly embedded below. Machine integers (`u32`) are
modelled as `Nat` with wrapping made explicit where the source performs
`u32` arithmetic (`wadd` / `wsub`, release-profile wrapping semantics).
Target memory is a byte map `Nat → Nat`; the debug-probe operations
(`write_8`, `read_core_reg`, `run`, ...) are modelled as a sequence of
primitive steps, each of which may fail, driven by a failure oracle
`fail : Nat → Bool` (operation `i` of a function fails iff `fail i`).
A Rust `panic!` / failed `assert!` / `todo!` is modelled as the `panicked`
outcome, a probe communication error as `probeError`.
-/

/-- Modulus of `u32` arithmetic (the literal value of `2 ^ 32`). -/
def u32Mod : Nat := 4294967296

/-- Wrapping `u32` addition (`a + b` on `u32` in release profile). -/
def wadd (a b : Nat) : Nat := (a + b) % u32Mod

/-- Wrapping `u32` subtraction (`a - b` on `u32` in release profile). -/
def wsub (a b : Nat) : Nat := (a + (u32Mod - b % u32Mod)) % u32Mod

/-- Source: `const CANARY_VALUE: u8 = 0xAA;`. -/
def CANARY_VALUE : Nat := 0xAA

/-- Source: `const PAINT_SUBROUTINE_LENGTH: usize = 28;`. -/
def PAINT_SUBROUTINE_LENGTH : Nat := 28

/-- Source: `const MEASURE_SUBROUTINE_LENGTH: usize = 0;`. -/
def MEASURE_SUBROUTINE_LENGTH : Nat := 0

/-- Target RAM, as a byte map. -/
def Mem : Type := Nat → Nat

/-- Effect of `core.write_8(addr, bs)` on memory: bytes `bs` land at
`[addr, addr + bs.length)`, everything else is unchanged. -/
def writeBytes (m : Mem) (addr : Nat) (bs : List Nat) : Mem :=
  fun a => if addr ≤ a ∧ a < addr + bs.length then bs.getD (a - addr) 0 else m a

/-- Result of `core.read_8(addr, buf)` for a buffer of length `len`. -/
def readBytes (m : Mem) (addr len : Nat) : List Nat :=
  (List.range len).map (fun i => m (addr + i))

/-- Rust `u32::to_le_bytes`. -/
def leBytes32 (n : Nat) : List Nat :=
  [n % 256, n / 256 % 256, n / 65536 % 256, n / 16777216 % 256]

/-- Source `fn round_up(n: u32, k: u32) -> u32`: returns `n` when `n % k == 0`,
otherwise `n + 4 - rem` in wrapping `u32` arithmetic.  Note the hardcoded
increment `4`, independent of `k`. -/
def round_up (n k : Nat) : Nat :=
  let rem := n % k
  if rem = 0 then n else wsub (wadd n 4) rem

/-- Source `fn paint_subroutine(start: u32, size: u32) -> [u8; 28]`.
The two `assert_eq!`s (4-byte alignment of `start` and of `size`) are modelled
as `none` (panic); otherwise the 28-byte Thumb machine-code buffer is built,
with `end = start + size` (`u32` add) and the `start`/`end` operands and the
canary word appended as little-endian bytes. -/
def paint_subroutine (start size : Nat) : Option (List Nat) :=
  if start % 4 ≠ 0 then none
  else if size % 4 ≠ 0 then none
  else
    some ([0x03, 0x48,   -- ldr r0, [pc, #12]
           0x04, 0x49,   -- ldr r1, [pc, #16]
           0x04, 0x4a,   -- ldr r2, [pc, #16]
           0x81, 0x42,   -- cmp r1, r0
           0x01, 0xD0,   -- beq.n <end>
           0x04, 0xC0,   -- stmia r0!, \x7br2\x7d
           0xFB, 0xE7,   -- b.n <loop>
           0x00, 0xBE]   -- bkpt 0x0000
          ++ leBytes32 start ++ leBytes32 (wadd start size)
          ++ [CANARY_VALUE, CANARY_VALUE, CANARY_VALUE, CANARY_VALUE])

/-- One `stmia r0!, \x7br2\x7d` iteration of the paint loop: store the canary
word (four `0xAA` bytes) at `r0`, advance `r0` by 4; `fuel` counts the
remaining iterations. -/
def stmiaLoop : Nat → Nat → Mem → Mem
  | 0, _, m => m
  | fuel + 1, r0, m =>
      stmiaLoop fuel (r0 + 4)
        (writeBytes m r0 [CANARY_VALUE, CANARY_VALUE, CANARY_VALUE, CANARY_VALUE])

/-- Effect on RAM of executing the injected paint subroutine, derived from the
assembly listing in the source: with `r0 = start`, `r1 = start + size` and
`r2 = 0xAAAAAAAA`, the loop stores the canary word at `r0` and advances by 4
until `r0 = r1`, i.e. `size / 4` iterations (the source asserts `4 ∣ size`
before the subroutine is run, and stack addresses do not wrap). -/
def runPaintSubroutine (m : Mem) (start size : Nat) : Mem :=
  stmiaLoop (size / 4) start m

/-- Outcome of a modelled Rust function: normal return, propagated probe
communication error (`?` on a `probe_rs::Error`), or panic. -/
inductive PResult
  | ok
  | probeError
  | panicked
deriving DecidableEq

/-- State of the single execution core visible to this module: RAM and the
program-counter register. -/
structure Core where
  mem : Mem
  pc : Nat

/-- Source `fn paint_stack(core, start: u32, size: u32)`.  Probe operations are
numbered in source order: 0 `write_8` (subroutine), 1 `read_core_reg PC`,
2 `write_core_reg PC start`, 3 `run`, 4 `wait_for_core_halted`, 5 `write_8`
(overwrite subroutine), 6 `write_core_reg PC previous`.  A failing operation
has no effect on the core and propagates `probeError`; the leading `assert!`
and the asserts inside `paint_subroutine` are `panicked`.  After a successful
run-and-wait the subroutine has painted `[start + 28, start + 28 + size)` and
the core halts at the subroutine's `bkpt` (offset 14 from `start`). -/
def paint_stack (fail : Nat → Bool) (c : Core) (start size : Nat) : PResult × Core :=
  if size < PAINT_SUBROUTINE_LENGTH then (.panicked, c)
  else
    match paint_subroutine (wadd start PAINT_SUBROUTINE_LENGTH) size with
    | none => (.panicked, c)
    | some sub =>
      if fail 0 then (.probeError, c)
      else
        let c1 : Core := { c with mem := writeBytes c.mem start sub }
        if fail 1 then (.probeError, c1)
        else
          let previous_pc := c1.pc
          if fail 2 then (.probeError, c1)
          else
            let c2 : Core := { c1 with pc := start }
            if fail 3 then (.probeError, c2)
            else if fail 4 then (.probeError, c2)
            else
              let c3 : Core :=
                { c2 with
                  mem := runPaintSubroutine c2.mem (wadd start PAINT_SUBROUTINE_LENGTH) size
                  pc := wadd start 14 }
              if fail 5 then (.probeError, c3)
              else
                let c4 : Core :=
                  { c3 with
                    mem := writeBytes c3.mem start
                      (List.replicate PAINT_SUBROUTINE_LENGTH CANARY_VALUE) }
                if fail 6 then (.probeError, c4)
                else (.ok, { c4 with pc := previous_pc })

/-- Source `StackInfo`: the unused stack range `[rstart, rend]` endpoints
(`range.start()` / `range.end()`) and the `data_below_stack` flag. -/
structure StackInfo where
  rstart : Nat
  rend : Nat
  data_below_stack : Bool
deriving DecidableEq

/-- Source `struct Canary` (the `CanaryPlan` of the specification). -/
structure Canary where
  address : Nat
  size : Nat
  stack_available : Nat
  data_below_stack : Bool
  measure_stack : Bool
deriving DecidableEq

/-- Canary size computed by `Canary::install`: the whole region when measuring
stack usage, otherwise `round_up(min(1024, stack_available / 10), 4)`. -/
def canary_size (measure : Bool) (stack_available : Nat) : Nat :=
  if measure then stack_available
  else round_up (min 1024 (stack_available / 10)) 4

/-- Source `Canary::install`.  Probe operations: 0 `sess.core(0)`,
1 `core.reset_and_halt` (RAM-preserving, parks the PC at `resetPC`); the
operations of `paint_stack` follow, renumbered by `+ 2`.  Returns the
function result, the final core state, and the installed plan (if any). -/
def install (fail : Nat → Bool) (c : Core) (resetPC : Nat)
    (stack_info : Option StackInfo) (program_uses_heap measure : Bool) :
    PResult × Core × Option Canary :=
  if fail 0 then (.probeError, c, none)
  else if fail 1 then (.probeError, c, none)
  else
    let c1 : Core := { c with pc := resetPC }
    match stack_info with
    | none => (.ok, c1, none)
    | some si =>
      if program_uses_heap then (.ok, c1, none)
      else
        let stack_start := si.rstart
        let stack_available := wsub si.rend stack_start
        let size := canary_size measure stack_available
        let pr := paint_stack (fun i => fail (i + 2)) c1 stack_start size
        match pr.1 with
        | .ok =>
            (.ok, pr.2, some ⟨stack_start, size, stack_available, si.data_below_stack, measure⟩)
        | r => (r, pr.2, none)

/-- Outcome of `measure_stack` (`Result<Option<u32>, probe_rs::Error>` plus
panic). -/
inductive MOut
  | ok (v : Option Nat)
  | probeError
  | panicked
deriving DecidableEq

/-- Source `fn measure_subroutine`: its body is `todo!()`, so every call
panics; modelled as `none` (no byte buffer is ever produced). -/
def measure_subroutine (start size : Nat) : Option (List Nat) := none

/-- Source `fn measure_stack(core, start: u32, size: u32)`.  The leading
`assert!` compares `MEASURE_SUBROUTINE_LENGTH` (= 0) with `size`; the
subroutine address is `start + size - MEASURE_SUBROUTINE_LENGTH`; operation 0
is the `read_8` of `MEASURE_SUBROUTINE_LENGTH` bytes, scanned with
`position(|b| *b != CANARY_VALUE)` (the found index itself is returned, as in
the source).  When the scan finds nothing the source calls
`measure_subroutine(start, size - PAINT_SUBROUTINE_LENGTH)`, whose `todo!()`
body panics before any further probe operation. -/
def measure_stack (fail : Nat → Bool) (c : Core) (start size : Nat) : MOut × Core :=
  if size < MEASURE_SUBROUTINE_LENGTH then (.panicked, c)
  else
    let subroutine_address := wsub (wadd start size) MEASURE_SUBROUTINE_LENGTH
    if fail 0 then (.probeError, c)
    else
      let canary := readBytes c.mem subroutine_address MEASURE_SUBROUTINE_LENGTH
      match canary.findIdx? (fun b => b != CANARY_VALUE) with
      | some addr => (.ok (some addr), c)
      | none =>
        match measure_subroutine start (wsub size PAINT_SUBROUTINE_LENGTH) with
        | none => (.panicked, c)
        | some _ => (.panicked, c)

/-- Verdict logic of `Canary::touched` (source lines 144-182), applied to the
outcome of the measure step: in measurement mode the result is always `false`;
in detection mode it is `true` exactly when a touched address was found. -/
def touched_verdict (can : Canary) (touched_address : Option Nat) : Bool :=
  if can.measure_stack then false
  else touched_address.isSome

/-- Minimum stack usage derived by `Canary::touched`:
`initial_stack_pointer - touched_address` (`u32` subtraction) when a touched
address was reported. -/
def min_stack_usage_of (initial_sp : Nat) (touched_address : Option Nat) : Option Nat :=
  touched_address.map (fun a => wsub initial_sp a)

/-- Outcome of `Canary::touched` (`anyhow::Result<bool>` plus panic). -/
inductive BOut
  | ok (b : Bool)
  | probeError
  | panicked
deriving DecidableEq

/-- Alias for the free function `measure_stack`, usable inside the `Canary`
namespace where the plain name resolves to the structure field. -/
def measure_stack_run : (Nat → Bool) → Core → Nat → Nat → MOut × Core :=
  measure_stack

/-- Source `Canary::touched`: runs `measure_stack` on the plan's region and
derives the verdict via `touched_verdict`. -/
def Canary.touched (fail : Nat → Bool) (c : Core) (can : Canary) : BOut × Core :=
  match measure_stack_run fail c can.address can.size with
  | (.probeError, c1) => (.probeError, c1)
  | (.panicked, c1) => (.panicked, c1)
  | (.ok ta, c1) => (.ok (touched_verdict can ta), c1)

/-! ## Helper lemmas about `round_up` -/

/-- When `n` is already a multiple of `k`, `round_up` returns it unchanged. -/
lemma round_up_self (n k : Nat) (h : n % k = 0) : round_up n k = n := by
  simp [round_up, h]

/-- For alignments dividing 4 and inputs with no `u32` overflow, `round_up`
produces a multiple of the alignment. -/
lemma round_up_mod_eq_zero (n k : Nat) (hk : 0 < k) (hd : k ∣ 4)
    (hn : n + 4 ≤ u32Mod) : round_up n k % k = 0 := by
  have hk4 : k ≤ 4 := Nat.le_of_dvd (by norm_num) hd
  simp only [u32Mod] at hn
  interval_cases k
  · simp [round_up, Nat.mod_one]
  · simp only [round_up, wadd, wsub, u32Mod]
    split_ifs with h
    · exact h
    · omega
  · exact absurd hd (by norm_num)
  · simp only [round_up, wadd, wsub, u32Mod]
    split_ifs with h
    · exact h
    · omega

/-- For alignments dividing 4 and inputs with no `u32` overflow, `round_up`
does not decrease its input. -/
lemma round_up_ge (n k : Nat) (hk : 0 < k) (hd : k ∣ 4)
    (hn : n + 4 ≤ u32Mod) : n ≤ round_up n k := by
  have hk4 : k ≤ 4 := Nat.le_of_dvd (by norm_num) hd
  simp only [u32Mod] at hn
  interval_cases k
  · simp [round_up, Nat.mod_one]
  · simp only [round_up, wadd, wsub, u32Mod]
    split_ifs with h
    · exact le_rfl
    · omega
  · exact absurd hd (by norm_num)
  · simp only [round_up, wadd, wsub, u32Mod]
    split_ifs with h
    · exact le_rfl
    · omega

/-- C3 counterexample: with `k = 3` the hardcoded `+ 4` increment of
`round_up` yields `round_up 1 3 = 4`, which is not a multiple of 3
(`4 % 3 = 1`), and iterating moves the value again (`round_up 4 3 = 7`),
refuting idempotence; with `k = 10`, `round_up 7 10 = 4 < 7` refutes
`round_up n k ≥ n`. -/
theorem round_up_general_k_fails :
    round_up 1 3 = 4 ∧ round_up 1 3 % 3 = 1 ∧
    round_up (round_up 1 3) 3 = 7 ∧ round_up 7 10 = 4 := by
  decide

/-- C3 (amended): for every alignment `k > 0` that divides the hardcoded
increment 4 and every `n` whose computation stays inside `u32`
(`n + 4 ≤ 2^32`), `round_up n k` is a multiple of `k`, is at least `n`, and
`round_up` is idempotent. -/
theorem round_up_props_for_divisors_of_four :
    ∀ (n k : Nat), 0 < k → k ∣ 4 → n + 4 ≤ u32Mod →
    round_up n k % k = 0 ∧ n ≤ round_up n k ∧
      round_up (round_up n k) k = round_up n k := by
  intro n k hk hd hn
  exact ⟨round_up_mod_eq_zero n k hk hd hn, round_up_ge n k hk hd hn,
    round_up_self _ _ (round_up_mod_eq_zero n k hk hd hn)⟩

/-- Witness for the amended C3, at `n = 5`, `k = 4`. -/
theorem round_up_props_witness :
    round_up 5 4 % 4 = 0 ∧ 5 ≤ round_up 5 4 ∧
      round_up (round_up 5 4) 4 = round_up 5 4 :=
  round_up_props_for_divisors_of_four 5 4 (by norm_num) (by norm_num)
    (by norm_num [u32Mod])

/-- C10 counterexample: at `n = 2^32 - 1 = 4294967295` the `u32` computation
`n + 4 - rem` wraps, so `round_up` returns 0, which is smaller than `n` and
hence not the least multiple of 4 at or above `n`. -/
theorem round_up_four_overflow_cex :
    round_up 4294967295 4 = 0 ∧
      Nat.blt (round_up 4294967295 4) 4294967295 = true := by
  decide

/-- C10 (amended): for every `n` whose computation stays inside `u32`
(`n + 4 ≤ 2^32`), `round_up n 4` is the least multiple of 4 at or above `n`:
it is a multiple of 4, at least `n`, and below any multiple of 4 at or above
`n`. -/
theorem round_up_four_least_multiple :
    ∀ (n m : Nat), n + 4 ≤ u32Mod →
    round_up n 4 % 4 = 0 ∧ n ≤ round_up n 4 ∧
      (n ≤ m → m % 4 = 0 → round_up n 4 ≤ m) := by
  intro n m hn
  simp only [u32Mod] at hn
  refine ⟨?_, ?_, ?_⟩
  · simp only [round_up, wadd, wsub, u32Mod]
    split_ifs with h
    · exact h
    · omega
  · simp only [round_up, wadd, wsub, u32Mod]
    split_ifs with h
    · exact le_rfl
    · omega
  · intro h1 h2
    simp only [round_up, wadd, wsub, u32Mod]
    split_ifs with h
    · exact h1
    · omega

/-- Witness for the amended C10, at `n = 6`, `m = 8`. -/
theorem round_up_four_least_multiple_witness :
    round_up 6 4 % 4 = 0 ∧ 6 ≤ round_up 6 4 ∧
      (6 ≤ 8 → 8 % 4 = 0 → round_up 6 4 ≤ 8) :=
  round_up_four_least_multiple 6 8 (by norm_num [u32Mod])

/-! ## Helper lemmas about `install` and `paint_stack` -/

/-- Size bounds of the detection-mode canary size formula. -/
lemma detection_size_spec (avail : Nat) :
    round_up (min 1024 (avail / 10)) 4 ≤ 1024 ∧
    round_up (min 1024 (avail / 10)) 4 % 4 = 0 ∧
    round_up (min 1024 (avail / 10)) 4 ≤ avail := by
  rcases Nat.le_total 1024 (avail / 10) with h | h
  · rw [min_eq_left h]
    refine ⟨by simp [round_up], by simp [round_up], ?_⟩
    have : 1024 * 10 ≤ avail / 10 * 10 := by omega
    have h2 := Nat.div_mul_le_self avail 10
    simp [round_up]
    omega
  · rw [min_eq_right h]
    simp only [round_up, wadd, wsub, u32Mod]
    refine ⟨?_, ?_, ?_⟩ <;> (split_ifs with hh <;> omega)

/-- Anatomy of a successful `install` that produced a plan: the metadata was
present, no heap was in use, and the plan's fields record the stack start,
the computed canary size and the mode, with `paint_stack` having succeeded. -/
lemma install_some_spec (fail : Nat → Bool) (c : Core) (rp : Nat)
    (si : Option StackInfo) (heap ms : Bool) (plan : Canary)
    (h : (install fail c rp si heap ms).2.2 = some plan) :
    ∃ s, si = some s ∧ heap = false ∧
      plan.address = s.rstart ∧
      plan.stack_available = wsub s.rend s.rstart ∧
      plan.size = canary_size ms plan.stack_available ∧
      plan.measure_stack = ms ∧
      (paint_stack (fun i => fail (i + 2)) { c with pc := rp } s.rstart
        plan.size).1 = PResult.ok := by
  by_cases h0 : fail 0 = true
  · simp [install, h0] at h
  by_cases h1 : fail 1 = true
  · simp [install, h0, h1] at h
  cases si with
  | none => simp [install, h0, h1] at h
  | some s =>
    by_cases hh : heap = true
    · simp [install, h0, h1, hh] at h
    · cases hpr : (paint_stack (fun i => fail (i + 2)) { c with pc := rp } s.rstart
          (canary_size ms (wsub s.rend s.rstart))).1 with
      | ok =>
        simp only [install, h0, h1, hh, if_false, Bool.false_eq_true] at h
        simp only [hpr] at h
        simp only [Option.some.injEq] at h
        subst h
        exact ⟨s, rfl, by simpa using hh, rfl, rfl, rfl, rfl, hpr⟩
      | probeError =>
        simp only [install, h0, h1, hh, if_false, Bool.false_eq_true] at h
        simp only [hpr] at h
        simp at h
      | panicked =>
        simp only [install, h0, h1, hh, if_false, Bool.false_eq_true] at h
        simp only [hpr] at h
        simp at h

/-- A `paint_stack` call that returned `ok` passed its preconditions: the
subroutine fits, and the subroutine start and the size are 4-byte aligned. -/
lemma paint_ok_spec (fail : Nat → Bool) (c : Core) (start size : Nat)
    (h : (paint_stack fail c start size).1 = PResult.ok) :
    PAINT_SUBROUTINE_LENGTH ≤ size ∧
      wadd start PAINT_SUBROUTINE_LENGTH % 4 = 0 ∧ size % 4 = 0 := by
  by_cases hsz : size < PAINT_SUBROUTINE_LENGTH
  · simp [paint_stack, hsz] at h
  cases hps : paint_subroutine (wadd start PAINT_SUBROUTINE_LENGTH) size with
  | none => simp [paint_stack, hsz, hps] at h
  | some sub =>
    have hal : wadd start PAINT_SUBROUTINE_LENGTH % 4 = 0 ∧ size % 4 = 0 := by
      by_cases ha : wadd start PAINT_SUBROUTINE_LENGTH % 4 = 0
      · by_cases hb : size % 4 = 0
        · exact ⟨ha, hb⟩
        · simp [paint_subroutine, ha, hb] at hps
      · simp [paint_subroutine, ha] at hps
    exact ⟨by omega, hal⟩

/-! ## Claims about `Canary::install` -/

/-- C4: in overflow-detection mode (`measure_stack = false`) every plan
produced by `install` has `size = round_up(min(1024, stack_available / 10), 4)`
and this size satisfies `size ≤ 1024`, `size % 4 = 0` and
`size ≤ stack_available`. -/
theorem detection_plan_size_spec :
    ∀ (fail : Nat → Bool) (c : Core) (rp : Nat) (si : Option StackInfo) (heap : Bool)
      (plan : Canary),
    (install fail c rp si heap false).2.2 = some plan →
    plan.size = round_up (min 1024 (plan.stack_available / 10)) 4 ∧
      plan.size ≤ 1024 ∧ plan.size % 4 = 0 ∧ plan.size ≤ plan.stack_available := by
  intro fail c rp si heap plan h
  obtain ⟨s, hsi, hheap, haddr, havail, hsize, hms, hpaint⟩ :=
    install_some_spec fail c rp si heap false plan h
  have hsz : plan.size = round_up (min 1024 (plan.stack_available / 10)) 4 := by
    simpa [canary_size] using hsize
  obtain ⟨hb1, hb2, hb3⟩ := detection_size_spec plan.stack_available
  exact ⟨hsz, by rw [hsz]; exact hb1, by rw [hsz]; exact hb2, by rw [hsz]; exact hb3⟩

/-- Witness for C4: a concrete successful detection-mode install over the
stack range `[0, 4096]` produces the plan with size
`round_up(min(1024, 409), 4) = 412`. -/
theorem detection_plan_size_spec_witness :
    (Canary.mk 0 412 4096 false false).size
      = round_up (min 1024 ((Canary.mk 0 412 4096 false false).stack_available / 10)) 4 ∧
    (Canary.mk 0 412 4096 false false).size ≤ 1024 ∧
    (Canary.mk 0 412 4096 false false).size % 4 = 0 ∧
    (Canary.mk 0 412 4096 false false).size
      ≤ (Canary.mk 0 412 4096 false false).stack_available :=
  detection_plan_size_spec (fun i => false) ⟨fun a => 0, 0⟩ 0 (some ⟨0, 4096, false⟩)
    false ⟨0, 412, 4096, false, false⟩ (by decide)

/-- C8: every plan produced by a successful `install` satisfies the data-model
invariants, in both modes: 4-byte-aligned address, 4-byte-aligned size,
`size ≤ stack_available`, and `size` at least the painter subroutine's
footprint. -/
theorem canary_plan_invariants :
    ∀ (fail : Nat → Bool) (c : Core) (rp : Nat) (si : Option StackInfo) (heap ms : Bool)
      (plan : Canary),
    (install fail c rp si heap ms).2.2 = some plan →
    plan.address % 4 = 0 ∧ plan.size % 4 = 0 ∧
      plan.size ≤ plan.stack_available ∧ PAINT_SUBROUTINE_LENGTH ≤ plan.size := by
  intro fail c rp si heap ms plan h
  obtain ⟨s, hsi, hheap, haddr, havail, hsize, hms, hpaint⟩ :=
    install_some_spec fail c rp si heap ms plan h
  obtain ⟨hlen, hal, hsz4⟩ := paint_ok_spec _ _ _ _ hpaint
  refine ⟨?_, hsz4, ?_, hlen⟩
  · rw [haddr]
    simp only [wadd, u32Mod, PAINT_SUBROUTINE_LENGTH] at hal
    omega
  · rw [hsize]
    cases ms with
    | false => simpa [canary_size] using (detection_size_spec plan.stack_available).2.2
    | true => simp [canary_size]

/-- Witness for C8: a concrete successful measurement-mode install over the
stack range `[0, 32]` produces the plan `⟨0, 32, 32, false, true⟩`, which
satisfies all four invariants. -/
theorem canary_plan_invariants_witness :
    (Canary.mk 0 32 32 false true).address % 4 = 0 ∧
    (Canary.mk 0 32 32 false true).size % 4 = 0 ∧
    (Canary.mk 0 32 32 false true).size ≤ (Canary.mk 0 32 32 false true).stack_available ∧
    PAINT_SUBROUTINE_LENGTH ≤ (Canary.mk 0 32 32 false true).size :=
  canary_plan_invariants (fun i => false) ⟨fun a => 0, 0⟩ 0 (some ⟨0, 32, false⟩)
    false true ⟨0, 32, 32, false, true⟩ (by decide)

/-- C6: provided the two leading probe operations succeed, `install` returns
the successful no-canary result (ok with no plan) exactly when the stack-range
metadata is absent or the program uses a heap, and in those configurations the
target RAM is left untouched (nothing is painted). -/
theorem install_no_canary_configurations :
    ∀ (fail : Nat → Bool) (c : Core) (rp : Nat) (si : Option StackInfo) (heap ms : Bool),
    fail 0 = false → fail 1 = false →
    (((install fail c rp si heap ms).1 = PResult.ok ∧
        (install fail c rp si heap ms).2.2 = none) ↔ (si = none ∨ heap = true)) ∧
    ((si = none ∨ heap = true) → (install fail c rp si heap ms).2.1.mem = c.mem) := by
  intro fail c rp si heap ms h0 h1
  cases si with
  | none =>
    constructor
    · simp [install, h0, h1]
    · intro _
      simp [install, h0, h1]
  | some s =>
    by_cases hh : heap = true
    · constructor
      · simp [install, h0, h1, hh]
      · intro _
        simp [install, h0, h1, hh]
    · constructor
      · cases hpr : (paint_stack (fun i => fail (i + 2)) { c with pc := rp } s.rstart
            (canary_size ms (wsub s.rend s.rstart))).1 with
        | ok => simp [install, h0, h1, hh, hpr]
        | probeError => simp [install, h0, h1, hh, hpr]
        | panicked => simp [install, h0, h1, hh, hpr]
      · intro hcontra
        rcases hcontra with hc | hc
        · exact absurd hc (by simp)
        · exact absurd hc hh

/-- Witness for C6: with no probe failures and absent stack metadata, the
concrete install returns ok with no plan and leaves RAM untouched. -/
theorem install_no_canary_configurations_witness :
    (((install (fun i => false) ⟨fun a => 0, 5⟩ 7 none false false).1 = PResult.ok ∧
        (install (fun i => false) ⟨fun a => 0, 5⟩ 7 none false false).2.2 = none) ↔
      ((none : Option StackInfo) = none ∨ false = true)) ∧
    (((none : Option StackInfo) = none ∨ false = true) →
      (install (fun i => false) ⟨fun a => 0, 5⟩ 7 none false false).2.1.mem
        = (⟨fun a => 0, 5⟩ : Core).mem) :=
  install_no_canary_configurations (fun i => false) ⟨fun a => 0, 5⟩ 7 none false false
    rfl rfl

/-! ## Claims about `paint_stack`, `measure_stack` and `Canary::touched` -/

/-- C1 (code bug): at `start = 0`, `size = 28` on all-zero RAM with no probe
failures, `paint_stack` succeeds and fills not only the requested range
`[0, 28)` with the canary byte but also the 28 bytes `[28, 56)` beyond it
(byte 55 is painted, byte 56 is the first untouched one): the subroutine is
invoked as `paint_subroutine(start + 28, size)`, so it paints
`[start + 28, start + 28 + size)` instead of `[start + 28, start + size)`. -/
theorem paint_writes_past_requested_range :
    (paint_stack (fun i => false) ⟨fun a => 0, 99⟩ 0 28).1 = PResult.ok ∧
    (paint_stack (fun i => false) ⟨fun a => 0, 99⟩ 0 28).2.mem 0 = CANARY_VALUE ∧
    (paint_stack (fun i => false) ⟨fun a => 0, 99⟩ 0 28).2.mem 27 = CANARY_VALUE ∧
    (paint_stack (fun i => false) ⟨fun a => 0, 99⟩ 0 28).2.mem 28 = CANARY_VALUE ∧
    (paint_stack (fun i => false) ⟨fun a => 0, 99⟩ 0 28).2.mem 55 = CANARY_VALUE ∧
    (paint_stack (fun i => false) ⟨fun a => 0, 99⟩ 0 28).2.mem 56 = 0 := by
  decide

/-- C2 (code bug): on a painted region `[0, 28)` that is all canary bytes
except a single differing byte at offset 4, `measure_stack` does not return
the touched address `start + 4`: because `MEASURE_SUBROUTINE_LENGTH = 0` its
read-back scans an empty buffer, finds nothing, and the call falls through to
the unimplemented `measure_subroutine` and panics. -/
theorem measure_stack_panics_on_touched_region :
    (measure_stack (fun i => false)
      ⟨fun a => if a = 4 then 0 else CANARY_VALUE, 0⟩ 0 28).1 = MOut.panicked := by
  decide

/-- C7 counterexample: when probe operation 3 (`core.run()`) fails, the
`?` operator propagates the error immediately and `paint_stack` exits with
the program counter still redirected to the subroutine address 0 instead of
the saved pre-call value 99. -/
theorem paint_stack_pc_not_restored_on_run_failure :
    (paint_stack (fun i => i == 3) ⟨fun a => 0, 99⟩ 0 28).1 = PResult.probeError ∧
    (paint_stack (fun i => i == 3) ⟨fun a => 0, 99⟩ 0 28).2.pc = 0 ∧
    ((paint_stack (fun i => i == 3) ⟨fun a => 0, 99⟩ 0 28).2.pc != 99) = true := by
  decide

/-- C7 (amended): the program counter is restored to its pre-call value on
every successful exit of `paint_stack`, and is unchanged on panics and on
probe failures that occur before the PC is redirected (operations 0-2); on
probe failures after the redirect the PC may be left pointing into the
injected subroutine. -/
theorem paint_stack_pc_restored_amended :
    ∀ (fail : Nat → Bool) (c : Core) (start size : Nat),
    (paint_stack fail c start size).1 = PResult.ok ∨
      (paint_stack fail c start size).1 = PResult.panicked ∨
      fail 0 = true ∨ fail 1 = true ∨ fail 2 = true →
    (paint_stack fail c start size).2.pc = c.pc := by
  intro fail c start size h
  by_cases hsz : size < PAINT_SUBROUTINE_LENGTH
  · simp [paint_stack, hsz]
  cases hps : paint_subroutine (wadd start PAINT_SUBROUTINE_LENGTH) size with
  | none => simp [paint_stack, hsz, hps]
  | some sub =>
    by_cases h0 : fail 0 = true
    · simp [paint_stack, hsz, hps, h0]
    by_cases h1 : fail 1 = true
    · simp [paint_stack, hsz, hps, h0, h1]
    by_cases h2 : fail 2 = true
    · simp [paint_stack, hsz, hps, h0, h1, h2]
    by_cases h3 : fail 3 = true
    · simp [paint_stack, hsz, hps, h0, h1, h2, h3] at h
    by_cases h4 : fail 4 = true
    · simp [paint_stack, hsz, hps, h0, h1, h2, h3, h4] at h
    by_cases h5 : fail 5 = true
    · simp [paint_stack, hsz, hps, h0, h1, h2, h3, h4, h5] at h
    by_cases h6 : fail 6 = true
    · simp [paint_stack, hsz, hps, h0, h1, h2, h3, h4, h5, h6] at h
    · simp [paint_stack, hsz, hps, h0, h1, h2, h3, h4, h5, h6]

/-- Witness for the amended C7: a concrete failure-free paint over `[0, 28)`
returns with the program counter restored to the pre-call value 99. -/
theorem paint_stack_pc_restored_amended_witness :
    (paint_stack (fun i => false) ⟨fun a => 0, 99⟩ 0 28).2.pc
      = (⟨fun a => 0, 99⟩ : Core).pc :=
  paint_stack_pc_restored_amended (fun i => false) ⟨fun a => 0, 99⟩ 0 28
    (Or.inl (by decide))

/-- C5: in measurement mode the verdict logic of `Canary::touched` never
reports an overflow: whatever the measure step reported (intact canary or any
touched address), the returned verdict is `false`. -/
theorem measurement_mode_no_overflow :
    ∀ (address size avail : Nat) (dbs : Bool) (ta : Option Nat),
    touched_verdict ⟨address, size, avail, dbs, true⟩ ta = false := by
  intro address size avail dbs ta
  rfl

/-- Predicate on `measure_stack` outcomes: did the call return normally? -/
def MOut.isNormal : MOut → Bool
  | .ok _ => true
  | _ => false

/-- Predicate on `Canary::touched` outcomes: did the call return normally? -/
def BOut.isNormal : BOut → Bool
  | .ok _ => true
  | _ => false

/-- C9: `measure_stack` never returns normally (in particular never returns an
intact-canary `Ok(None)`): with `MEASURE_SUBROUTINE_LENGTH = 0` the read-back
scans an empty buffer, so when its one probe operation succeeds the call
always reaches the unimplemented `measure_subroutine` and panics, and
consequently `Canary::touched` never completes normally either. -/
theorem measure_stack_never_ok :
    ∀ (fail : Nat → Bool) (c : Core) (start size : Nat) (can : Canary),
    (measure_stack fail c start size).1.isNormal = false ∧
    (measure_stack (fun i => false) c start size).1 = MOut.panicked ∧
    (Canary.touched fail c can).1.isNormal = false := by
  intro fail c start size can
  have key : ∀ (g : Nat → Bool) (d : Core) (s z : Nat),
      (measure_stack g d s z).1.isNormal = false := by
    intro g d s z
    by_cases h0 : g 0 = true <;>
      simp [measure_stack, MEASURE_SUBROUTINE_LENGTH, readBytes, measure_subroutine,
        h0, MOut.isNormal]
  refine ⟨key fail c start size, ?_, ?_⟩
  · simp [measure_stack, MEASURE_SUBROUTINE_LENGTH, readBytes, measure_subroutine]
  · have h1 := key fail c can.address can.size
    rcases hms : measure_stack fail c can.address can.size with ⟨X, c1⟩
    cases X with
    | ok v =>
      rw [hms] at h1
      simp [MOut.isNormal] at h1
    | probeError =>
      simp [Canary.touched, measure_stack_run, hms, BOut.isNormal]
    | panicked =>
      simp [Canary.touched, measure_stack_run, hms, BOut.isNormal]
